import Mathlib

/-!
Verification of the snowflake-bounce `Bouncer` core (src/src/lib.rs),
shallowly embedded in Lean.

Modelling conventions:
* `u16` fields are modelled as `Nat`; the operations themselves keep the
  values in range, and where a theorem needs the `u16` range it appears as
  an explicit hypothesis (`≤ 65535`).
* `i32` values (`dx`, `dy`, logo dimensions, the intermediate candidate
  coordinates) are modelled as `Int`.
* The thread-local RNG is modelled as an explicit list of draws consumed in
  order; each call of `change_color` / `cycle_color` consumes one draw.
* Rust's `u16::try_from(n).unwrap_or(u16::MAX)` is `commitU16`, and
  `u16::try_from` as a fallible conversion is `u16TryFrom` (`none` = panic
  of `.unwrap()`).
* Rust's `i32::abs` (which, in release mode, wraps on `i32::MIN`) is
  `i32abs`; Rust's `%` on `i32` (truncated remainder) is `Int.tmod`.
-/

/-- The closed set of symbol modes (src/src/lib.rs, `enum SymbolMode`). -/
inductive SymbolMode where
  | SnowflakeSmall
  | SnowflakeLarge
  | NixOS
  | Arch
  | MiddleFinger
deriving DecidableEq, Repr

/-- The colors the program ever assigns: initial `Blue` plus the palette of
`cycle_color` (a sub-enumeration of `crossterm::style::Color`). -/
inductive Color where
  | Green
  | Blue
  | White
  | Yellow
  | Cyan
  | Magenta
  | Red
deriving DecidableEq, Repr

/-- The `Bouncer` struct (src/src/lib.rs). `x`, `y`, `prev_x`, `prev_y`,
`max_x`, `max_y` are `u16` in the source, `dx`, `dy` are `i32`. -/
structure Bouncer where
  x : Nat
  y : Nat
  prev_x : Nat
  prev_y : Nat
  dx : Int
  dy : Int
  color : Color
  max_x : Nat
  max_y : Nat
  mode : SymbolMode
deriving DecidableEq, Repr

attribute [ext] Bouncer

/-- Rust `u16::try_from(n).unwrap_or(u16::MAX)` — the narrowing commit at the end
of `update`. -/
def commitU16 (n : Int) : Nat :=
  if 0 ≤ n ∧ n ≤ 65535 then n.toNat else 65535

/-- Rust `u16::try_from(n)` as a fallible conversion; `none` models a panic of
`.unwrap()`. -/
def u16TryFrom (n : Int) : Option Nat :=
  if 0 ≤ n ∧ n ≤ 65535 then some n.toNat else none

/-- Rust `i32::abs` in release mode: the absolute value, except that
`i32::MIN.abs()` wraps back to `i32::MIN`. -/
def i32abs (r : Int) : Int :=
  if r = -(2 ^ 31) then -(2 ^ 31) else (r.natAbs : Int)

/-- The color palette of `cycle_color` (src/src/lib.rs, `colors` array). -/
def palette : List Color :=
  [Color.Green, Color.Blue, Color.White, Color.Yellow, Color.Cyan,
   Color.Magenta, Color.Red]

/-- The pick `colors[rng::<usize>() % colors.len()]` for one random draw `r`. -/
def pickColor (r : Nat) : Color :=
  palette.getD (r % palette.length) Color.Blue

/-- Method `Bouncer::get_logo_dimensions` (src/src/lib.rs): `(width, height)` of the
current mode, as `i32`. -/
def Bouncer.get_logo_dimensions (b : Bouncer) : Int × Int :=
  match b.mode with
  | SymbolMode.SnowflakeSmall => (1, 1)
  | SymbolMode.SnowflakeLarge => (5, 3)
  | SymbolMode.NixOS => (46, 19)
  | SymbolMode.MiddleFinger => (2, 1)
  | SymbolMode.Arch => (46, 19)

/-- Method `Bouncer::new` (src/src/lib.rs), parametrised over the terminal size
`(cols, lines)` reported by the terminal collaborator (the source defaults
to `(80, 24)` when the query fails) and over the four RNG draws it makes:
two `i32` draws `r1`, `r2` and two `bool` draws `b1`, `b2`.  Returns `none`
when one of the `u16::try_from(..).unwrap()` calls would panic. -/
def Bouncer.new (cols lines : Nat) (r1 r2 : Int) (b1 b2 : Bool) :
    Option Bouncer :=
  let max_x := cols - 1
  let max_y := lines - 1
  let sx : Int := (i32abs r1).tmod (max ((max_x : Int) - 50) 5) + 2
  let sy : Int := (i32abs r2).tmod (max ((max_y : Int) - 25) 5) + 2
  match u16TryFrom sx, u16TryFrom sy with
  | some start_x, some start_y =>
      some { x := start_x, y := start_y,
             prev_x := start_x, prev_y := start_y,
             dx := if b1 then 1 else -1,
             dy := if b2 then 1 else -1,
             color := Color.Blue,
             max_x := max_x, max_y := max_y,
             mode := SymbolMode.NixOS }
  | _, _ => none

/-- Method `Bouncer::cycle_symbol` (src/src/lib.rs). -/
def Bouncer.cycle_symbol (b : Bouncer) : Bouncer :=
  { b with mode :=
      match b.mode with
      | SymbolMode.SnowflakeSmall => SymbolMode.SnowflakeLarge
      | SymbolMode.SnowflakeLarge => SymbolMode.NixOS
      | SymbolMode.NixOS => SymbolMode.SnowflakeSmall
      | SymbolMode.MiddleFinger => SymbolMode.SnowflakeSmall
      | SymbolMode.Arch => SymbolMode.NixOS }

/-- Method `Bouncer::cycle_color` (src/src/lib.rs), with its one RNG draw `r`
made explicit. -/
def Bouncer.cycle_color (b : Bouncer) (r : Nat) : Bouncer :=
  { b with color := pickColor r }

/-- Method `Bouncer::change_color` (src/src/lib.rs): delegates to `cycle_color`. -/
def Bouncer.change_color (b : Bouncer) (r : Nat) : Bouncer :=
  b.cycle_color r

/-- Method `Bouncer::set_middle_finger` (src/src/lib.rs). -/
def Bouncer.set_middle_finger (b : Bouncer) : Bouncer :=
  { b with mode := SymbolMode.MiddleFinger }

/-- Method `Bouncer::set_arch` (src/src/lib.rs). -/
def Bouncer.set_arch (b : Bouncer) : Bouncer :=
  { b with mode := SymbolMode.Arch }

/-- Method `Bouncer::update` (src/src/lib.rs): one physics tick.  `rs` is the
stream of pending RNG draws; the returned list is the unconsumed rest of
the stream (each firing collision branch calls `change_color`, consuming
one draw). -/
def Bouncer.update (b : Bouncer) (rs : List Nat) : Bouncer × List Nat :=
  let prevx := b.x
  let prevy := b.y
  let nx0 : Int := (b.x : Int) + b.dx
  let ny0 : Int := (b.y : Int) + b.dy
  let w : Int := b.get_logo_dimensions.1
  let h : Int := b.get_logo_dimensions.2
  let nx1 : Int :=
    if nx0 ≤ 0 then 0
    else if nx0 + w ≥ (b.max_x : Int) then (b.max_x : Int) - w
    else nx0
  let xColl : Prop := nx0 ≤ 0 ∨ nx0 + w ≥ (b.max_x : Int)
  let dx1 : Int := if xColl then -b.dx else b.dx
  let col1 : Color := if xColl then pickColor (rs.headD 0) else b.color
  let rs1 : List Nat := if xColl then rs.tail else rs
  let ny1 : Int :=
    if ny0 ≤ 0 then 0
    else if ny0 + h ≥ (b.max_y : Int) then (b.max_y : Int) - h
    else ny0
  let yColl : Prop := ny0 ≤ 0 ∨ ny0 + h ≥ (b.max_y : Int)
  let dy1 : Int := if yColl then -b.dy else b.dy
  let col2 : Color := if yColl then pickColor (rs1.headD 0) else col1
  let rs2 : List Nat := if yColl then rs1.tail else rs1
  ({ b with x := commitU16 nx1, y := commitU16 ny1,
            prev_x := prevx, prev_y := prevy,
            dx := dx1, dy := dy1, color := col2 }, rs2)

/-- One clamp of `Bouncer::resize` (src/src/lib.rs): the conditional
`if pos + len >= max { pos = u16::try_from(i32::from(max)
.saturating_sub(len).max(0)).unwrap() }`, applied identically to `x`, `y`,
`prev_x` and `prev_y` in the source. -/
def clampCoord (pos : Nat) (len : Int) (maxC : Nat) : Nat :=
  if (pos : Int) + len ≥ (maxC : Int)
  then (max ((maxC : Int) - len) 0).toNat else pos

/-- Method `Bouncer::resize` (src/src/lib.rs): recompute the bounds (saturating at
0), then clamp the current and the previous position against the new
bounds using the current mode's dimensions. -/
def Bouncer.resize (b : Bouncer) (w h : Nat) : Bouncer :=
  { b with
    x := clampCoord b.x b.get_logo_dimensions.1 (w - 1),
    y := clampCoord b.y b.get_logo_dimensions.2 (h - 1),
    prev_x := clampCoord b.prev_x b.get_logo_dimensions.1 (w - 1),
    prev_y := clampCoord b.prev_y b.get_logo_dimensions.2 (h - 1),
    max_x := w - 1, max_y := h - 1 }

/-- Method `Bouncer::get_logo_lines` (src/src/lib.rs): the glyph rows of the
current mode, verbatim. -/
def Bouncer.get_logo_lines (b : Bouncer) : List String :=
  match b.mode with
  | SymbolMode.SnowflakeSmall => ["❄"]
  | SymbolMode.SnowflakeLarge => ["  ❄  ", " ❄❄❄ ", "  ❄  "]
  | SymbolMode.NixOS =>
      ["          ::::.    ':::::     ::::'          ",
       "          ':::::    ':::::.  ::::'           ",
       "            :::::     '::::.:::::            ",
       "      .......:::::..... ::::::::             ",
       "     ::::::::::::::::::. ::::::    ::::.     ",
       "    ::::::::::::::::::::: :::::.  .::::'     ",
       "           .....           ::::' :::::'      ",
       "          :::::            '::' :::::'       ",
       " ........:::::               ' :::::::::::.  ",
       ":::::::::::::                 :::::::::::::  ",
       " ::::::::::: ..              :::::           ",
       "     .::::: .:::            :::::            ",
       "    .:::::  :::::          '''''    .....    ",
       "    :::::   ':::::.  ......:::::::::::::'    ",
       "     :::     ::::::. ':::::::::::::::::'     ",
       "            .:::::::: '::::::::::            ",
       "           .::::''::::.     '::::.           ",
       "          .::::'   ::::.     '::::.          ",
       "         .::::      ::::      '::::.         "]
  | SymbolMode.MiddleFinger => ["🖕"]
  | SymbolMode.Arch =>
      ["                      ▄                       ",
       "                     ▟█▙                      ",
       "                    ▟███▙                     ",
       "                   ▟█████▙                    ",
       "                  ▟███████▙                   ",
       "                 ▂▔▀▜██████▙                  ",
       "                ▟██▅▂▝▜█████▙                 ",
       "               ▟█████████████▙                ",
       "              ▟███████████████▙               ",
       "             ▟█████████████████▙              ",
       "            ▟███████████████████▙             ",
       "           ▟█████████▛▀▀▜████████▙            ",
       "          ▟████████▛      ▜███████▙           ",
       "         ▟█████████        ████████▙          ",
       "        ▟██████████        █████▆▅▄▃▂         ",
       "       ▟██████████▛        ▜█████████▙        ",
       "      ▟██████▀▀▀              ▀▀██████▙       ",
       "     ▟███▀▘                       ▝▀███▙      ",
       "    ▟▛▀                               ▀▜▙     "]

/-- Modelled from the spec: the terminal display width of one character
(the repository contains no width code; the spec's "display columns" refer
to the terminal's rendering).  Among the characters occurring in the glyph
table — ASCII, `U+2744` (❄, East Asian Neutral), the block elements
`U+2580`–`U+259F`, and `U+1F595` (🖕) — only `U+1F595` is East Asian Wide,
rendering as 2 columns; all others render as 1 column. -/
def charDisplayWidth (c : Char) : Nat :=
  if c.toNat = 0x1F595 then 2 else 1

/-- Display width of a row: the sum of its characters' display widths. -/
def displayWidth (s : String) : Nat :=
  (s.toList.map charDisplayWidth).sum

/-- The glyph's bounding box is inside the bounds: `0 ≤ x`,
`x + width(mode) ≤ max_x`, `0 ≤ y`, `y + height(mode) ≤ max_y`. -/
def inBounds (b : Bouncer) : Prop :=
  0 ≤ (b.x : Int) ∧ (b.x : Int) + b.get_logo_dimensions.1 ≤ (b.max_x : Int) ∧
  0 ≤ (b.y : Int) ∧ (b.y : Int) + b.get_logo_dimensions.2 ≤ (b.max_y : Int)

instance (b : Bouncer) : Decidable (inBounds b) := by
  unfold inBounds; infer_instance

/-- The previous position's bounding box is inside the bounds. -/
def prevInBounds (b : Bouncer) : Prop :=
  0 ≤ (b.prev_x : Int) ∧
  (b.prev_x : Int) + b.get_logo_dimensions.1 ≤ (b.max_x : Int) ∧
  0 ≤ (b.prev_y : Int) ∧
  (b.prev_y : Int) + b.get_logo_dimensions.2 ≤ (b.max_y : Int)

instance (b : Bouncer) : Decidable (prevInBounds b) := by
  unfold prevInBounds; infer_instance

/-- The states reachable from construction via the public mutators. -/
inductive Reachable : Bouncer → Prop where
  | new : ∀ (cols lines : Nat) (r1 r2 : Int) (b1 b2 : Bool) (b : Bouncer),
      Bouncer.new cols lines r1 r2 b1 b2 = some b → Reachable b
  | update : ∀ (b : Bouncer) (rs : List Nat),
      Reachable b → Reachable (b.update rs).1
  | resize : ∀ (b : Bouncer) (w h : Nat),
      Reachable b → Reachable (b.resize w h)
  | cycle_symbol : ∀ (b : Bouncer), Reachable b → Reachable b.cycle_symbol
  | cycle_color : ∀ (b : Bouncer) (r : Nat),
      Reachable b → Reachable (b.cycle_color r)
  | set_middle_finger : ∀ (b : Bouncer),
      Reachable b → Reachable b.set_middle_finger
  | set_arch : ∀ (b : Bouncer), Reachable b → Reachable b.set_arch

/-! ## Component lemmas for `Bouncer.update` -/

lemma update_x (b : Bouncer) (rs : List Nat) :
    ((b.update rs).1).x =
      commitU16
        (if (b.x : Int) + b.dx ≤ 0 then 0
         else if (b.x : Int) + b.dx + b.get_logo_dimensions.1 ≥ (b.max_x : Int)
              then (b.max_x : Int) - b.get_logo_dimensions.1
              else (b.x : Int) + b.dx) := rfl

lemma update_y (b : Bouncer) (rs : List Nat) :
    ((b.update rs).1).y =
      commitU16
        (if (b.y : Int) + b.dy ≤ 0 then 0
         else if (b.y : Int) + b.dy + b.get_logo_dimensions.2 ≥ (b.max_y : Int)
              then (b.max_y : Int) - b.get_logo_dimensions.2
              else (b.y : Int) + b.dy) := rfl

lemma update_dx (b : Bouncer) (rs : List Nat) :
    ((b.update rs).1).dx =
      if ((b.x : Int) + b.dx ≤ 0 ∨
          (b.x : Int) + b.dx + b.get_logo_dimensions.1 ≥ (b.max_x : Int))
      then -b.dx else b.dx := rfl

lemma update_dy (b : Bouncer) (rs : List Nat) :
    ((b.update rs).1).dy =
      if ((b.y : Int) + b.dy ≤ 0 ∨
          (b.y : Int) + b.dy + b.get_logo_dimensions.2 ≥ (b.max_y : Int))
      then -b.dy else b.dy := rfl

lemma update_prev_x (b : Bouncer) (rs : List Nat) :
    ((b.update rs).1).prev_x = b.x := rfl

lemma update_prev_y (b : Bouncer) (rs : List Nat) :
    ((b.update rs).1).prev_y = b.y := rfl

lemma update_mode (b : Bouncer) (rs : List Nat) :
    ((b.update rs).1).mode = b.mode := rfl

lemma update_max_x (b : Bouncer) (rs : List Nat) :
    ((b.update rs).1).max_x = b.max_x := rfl

lemma update_max_y (b : Bouncer) (rs : List Nat) :
    ((b.update rs).1).max_y = b.max_y := rfl

lemma update_color (b : Bouncer) (rs : List Nat) :
    ((b.update rs).1).color =
      (if ((b.y : Int) + b.dy ≤ 0 ∨
           (b.y : Int) + b.dy + b.get_logo_dimensions.2 ≥ (b.max_y : Int))
       then pickColor
              ((if ((b.x : Int) + b.dx ≤ 0 ∨
                    (b.x : Int) + b.dx + b.get_logo_dimensions.1 ≥ (b.max_x : Int))
                then rs.tail else rs).headD 0)
       else if ((b.x : Int) + b.dx ≤ 0 ∨
                (b.x : Int) + b.dx + b.get_logo_dimensions.1 ≥ (b.max_x : Int))
            then pickColor (rs.headD 0) else b.color) := rfl

lemma update_rest (b : Bouncer) (rs : List Nat) :
    (b.update rs).2 =
      (if ((b.y : Int) + b.dy ≤ 0 ∨
           (b.y : Int) + b.dy + b.get_logo_dimensions.2 ≥ (b.max_y : Int))
       then (if ((b.x : Int) + b.dx ≤ 0 ∨
                 (b.x : Int) + b.dx + b.get_logo_dimensions.1 ≥ (b.max_x : Int))
             then rs.tail else rs).tail
       else if ((b.x : Int) + b.dx ≤ 0 ∨
                (b.x : Int) + b.dx + b.get_logo_dimensions.1 ≥ (b.max_x : Int))
            then rs.tail else rs) := rfl

/-- Both logo dimensions are positive, for every mode. -/
lemma get_logo_dimensions_pos (b : Bouncer) :
    0 < b.get_logo_dimensions.1 ∧ 0 < b.get_logo_dimensions.2 := by
  unfold Bouncer.get_logo_dimensions
  cases b.mode <;> exact ⟨by norm_num, by norm_num⟩

/-- The dimensions only depend on the mode. -/
lemma get_logo_dimensions_congr {b₁ b₂ : Bouncer} (h : b₁.mode = b₂.mode) :
    b₁.get_logo_dimensions = b₂.get_logo_dimensions := by
  unfold Bouncer.get_logo_dimensions
  rw [h]

/-! ## Claim C5 -/

/-- C5 (counterexample): from mode `Arch`, `cycle_symbol` switches to
`NixOS`, not to `SnowflakeSmall` as the claim states. -/
theorem cycle_symbol_arch_cex :
    (Bouncer.cycle_symbol
      ⟨2, 3, 2, 3, 1, 1, Color.Blue, 79, 23, SymbolMode.Arch⟩).mode =
        SymbolMode.NixOS ∧
    SymbolMode.NixOS ≠ SymbolMode.SnowflakeSmall := by
  exact ⟨rfl, by decide⟩

/-- C5 (amended): `cycle_symbol` follows the fixed cycle
SnowflakeSmall → SnowflakeLarge → NixOS → SnowflakeSmall; the explicitly
set mode MiddleFinger cycles back to SnowflakeSmall, while the explicitly
set mode Arch cycles to NixOS. -/
theorem cycle_symbol_table (b : Bouncer) :
    (Bouncer.cycle_symbol { b with mode := SymbolMode.SnowflakeSmall }).mode
        = SymbolMode.SnowflakeLarge ∧
    (Bouncer.cycle_symbol { b with mode := SymbolMode.SnowflakeLarge }).mode
        = SymbolMode.NixOS ∧
    (Bouncer.cycle_symbol { b with mode := SymbolMode.NixOS }).mode
        = SymbolMode.SnowflakeSmall ∧
    (Bouncer.cycle_symbol { b with mode := SymbolMode.MiddleFinger }).mode
        = SymbolMode.SnowflakeSmall ∧
    (Bouncer.cycle_symbol { b with mode := SymbolMode.Arch }).mode
        = SymbolMode.NixOS :=
  ⟨rfl, rfl, rfl, rfl, rfl⟩

/-! ## Claim C6 -/

/-- C6: the post-update position, velocity, previous position, bounds and
mode do not depend on the values drawn from the random source; two runs of
`update` from the same state with different RNG streams agree on every
field except possibly the color. -/
theorem update_position_deterministic (b : Bouncer) (rs rs' : List Nat) :
    ((b.update rs).1).x = ((b.update rs').1).x ∧
    ((b.update rs).1).y = ((b.update rs').1).y ∧
    ((b.update rs).1).dx = ((b.update rs').1).dx ∧
    ((b.update rs).1).dy = ((b.update rs').1).dy ∧
    ((b.update rs).1).prev_x = ((b.update rs').1).prev_x ∧
    ((b.update rs).1).prev_y = ((b.update rs').1).prev_y ∧
    ((b.update rs).1).max_x = ((b.update rs').1).max_x ∧
    ((b.update rs).1).max_y = ((b.update rs').1).max_y ∧
    ((b.update rs).1).mode = ((b.update rs').1).mode := by
  refine ⟨?_, ?_, ?_, ?_, ?_, ?_, ?_, ?_, ?_⟩ <;>
    simp only [update_x, update_y, update_dx, update_dy, update_prev_x,
      update_prev_y, update_max_x, update_max_y, update_mode]

/-! ## Claim C9 -/

/-- C9: from `bounds = (79, 23)`, `mode = SnowflakeSmall`,
`position = (79, 10)`, `dx = 1`, `dy = 1`, one `update` commits `x = 78`,
flips `dx` to `-1`, and reassigns the color to a fresh random palette draw,
whatever the RNG stream holds. -/
theorem scenario_small_right_bounce (rs : List Nat) :
    ((Bouncer.update
        ⟨79, 10, 79, 10, 1, 1, Color.Blue, 79, 23, SymbolMode.SnowflakeSmall⟩
        rs).1.x = 78) ∧
    ((Bouncer.update
        ⟨79, 10, 79, 10, 1, 1, Color.Blue, 79, 23, SymbolMode.SnowflakeSmall⟩
        rs).1.dx = -1) ∧
    ((Bouncer.update
        ⟨79, 10, 79, 10, 1, 1, Color.Blue, 79, 23, SymbolMode.SnowflakeSmall⟩
        rs).1.color = pickColor (rs.headD 0)) := by
  refine ⟨rfl, ?_, ?_⟩
  · rw [update_dx]
    norm_num [Bouncer.get_logo_dimensions]
  · rw [update_color]
    norm_num [Bouncer.get_logo_dimensions]

/-! ## Claim C3 -/

/-- C3 (counterexample): with `mode = NixOS` (width 46), `max_x = 10`,
`x = 1`, `dx = 1`, the upper-edge branch fires and the committed `x` is
`u16::MAX = 65535`, not `0` as the claim states. -/
theorem update_clamp_not_zero_cex :
    ((Bouncer.update ⟨1, 5, 1, 5, 1, 1, Color.Blue, 10, 100, SymbolMode.NixOS⟩
        []).1.x = 65535) ∧ (65535 : Nat) ≠ 0 := by
  exact ⟨rfl, by decide⟩

/-- C3 (amended): in `update`, when the clamp target `max_x - width(mode)`
(resp. `max_y - height(mode)`) is negative because the glyph exceeds the
terminal and the upper-edge collision branch fires, the committed
coordinate saturates to `u16::MAX = 65535` (never a negative value). -/
theorem update_oversized_saturates (b : Bouncer) (rs : List Nat) :
    ((b.max_x : Int) < b.get_logo_dimensions.1 → 0 < (b.x : Int) + b.dx →
      ((b.update rs).1).x = 65535) ∧
    ((b.max_y : Int) < b.get_logo_dimensions.2 → 0 < (b.y : Int) + b.dy →
      ((b.update rs).1).y = 65535) := by
  constructor
  · intro hw hpos
    rw [update_x, if_neg (by omega), if_pos (by omega)]
    unfold commitU16
    rw [if_neg (by omega)]
  · intro hh hpos
    rw [update_y, if_neg (by omega), if_pos (by omega)]
    unfold commitU16
    rw [if_neg (by omega)]

/-- C3 (witness): the amended theorem applied at a concrete state whose
glyph (NixOS, 46×19) exceeds the 10×10 bounds on both axes. -/
theorem update_oversized_saturates_witness :
    ((Bouncer.update ⟨1, 1, 1, 1, 1, 1, Color.Blue, 10, 10, SymbolMode.NixOS⟩
        []).1.x = 65535) ∧
    ((Bouncer.update ⟨1, 1, 1, 1, 1, 1, Color.Blue, 10, 10, SymbolMode.NixOS⟩
        []).1.y = 65535) :=
  ⟨(update_oversized_saturates
      ⟨1, 1, 1, 1, 1, 1, Color.Blue, 10, 10, SymbolMode.NixOS⟩ []).1
      (by decide) (by decide),
   (update_oversized_saturates
      ⟨1, 1, 1, 1, 1, 1, Color.Blue, 10, 10, SymbolMode.NixOS⟩ []).2
      (by decide) (by decide)⟩

/-! ## Claim C1 -/

/-- C1 (counterexample): the containment invariant does not hold for every
reachable state — construction at size (80, 24) followed by `resize 5 5`
in `NixOS` mode reaches a state whose bounds (4, 4) are smaller than the
glyph, and after one `update` the bounding box still exceeds the bounds. -/
theorem update_reachable_escape_cex :
    Reachable ⟨0, 0, 0, 0, -1, -1, Color.Blue, 4, 4, SymbolMode.NixOS⟩ ∧
    ¬ inBounds (Bouncer.update
        ⟨0, 0, 0, 0, -1, -1, Color.Blue, 4, 4, SymbolMode.NixOS⟩ []).1 := by
  constructor
  · have h1 : Bouncer.new 80 24 0 0 false false =
        some ⟨2, 2, 2, 2, -1, -1, Color.Blue, 79, 23, SymbolMode.NixOS⟩ := by
      decide
    have h2 := Reachable.resize _ 5 5 (Reachable.new 80 24 0 0 false false _ h1)
    have h3 : (⟨2, 2, 2, 2, -1, -1, Color.Blue, 79, 23,
        SymbolMode.NixOS⟩ : Bouncer).resize 5 5 =
        ⟨0, 0, 0, 0, -1, -1, Color.Blue, 4, 4, SymbolMode.NixOS⟩ := by
      decide
    rwa [h3] at h2
  · decide

/-- C1 (amended): for every state whose current mode's glyph fits in the
bounds (`width(mode) ≤ max_x`, `height(mode) ≤ max_y`), after one call of
`update` the glyph's bounding box is fully contained in the bounds. -/
theorem update_inBounds_of_fits (b : Bouncer) (rs : List Nat)
    (hw : b.get_logo_dimensions.1 ≤ (b.max_x : Int))
    (hh : b.get_logo_dimensions.2 ≤ (b.max_y : Int)) :
    inBounds (b.update rs).1 := by
  obtain ⟨hwpos, hhpos⟩ := get_logo_dimensions_pos b
  have hdims := get_logo_dimensions_congr (update_mode b rs)
  unfold inBounds
  rw [hdims, update_x, update_y, update_max_x, update_max_y]
  unfold commitU16
  refine ⟨by positivity, ?_, by positivity, ?_⟩
  · split_ifs <;> omega
  · split_ifs <;> omega

/-- C1 (witness): the amended theorem applied at a concrete state. -/
theorem update_inBounds_of_fits_witness :
    inBounds (Bouncer.update
      ⟨10, 10, 10, 10, 1, 1, Color.Blue, 79, 23,
        SymbolMode.SnowflakeSmall⟩ [4]).1 :=
  update_inBounds_of_fits
    ⟨10, 10, 10, 10, 1, 1, Color.Blue, 79, 23, SymbolMode.SnowflakeSmall⟩
    [4] (by decide) (by decide)

/-! ## Claim C2 -/

/-- The `resize` clamp keeps a coordinate in bounds whenever the glyph
fits under the new bound. -/
lemma clampCoord_bounds (pos : Nat) (len : Int) (maxC : Nat)
    (hlen : len ≤ (maxC : Int)) :
    0 ≤ (clampCoord pos len maxC : Int) ∧
    (clampCoord pos len maxC : Int) + len ≤ (maxC : Int) := by
  unfold clampCoord
  split_ifs with hcond
  · rw [max_eq_left (by omega), Int.toNat_of_nonneg (by omega)]
    omega
  · omega

/-- C2: after `resize w h` with `w ≥ width(mode) + 1` and
`h ≥ height(mode) + 1`, both the position and the previous position satisfy
the containment invariant against the new bounds `(w - 1, h - 1)`. -/
theorem resize_inBounds (b : Bouncer) (w h : Nat)
    (hw : b.get_logo_dimensions.1 + 1 ≤ (w : Int))
    (hh : b.get_logo_dimensions.2 + 1 ≤ (h : Int)) :
    inBounds (b.resize w h) ∧ prevInBounds (b.resize w h) := by
  obtain ⟨hwpos, hhpos⟩ := get_logo_dimensions_pos b
  have hdims : (b.resize w h).get_logo_dimensions = b.get_logo_dimensions :=
    get_logo_dimensions_congr rfl
  have hx := clampCoord_bounds b.x b.get_logo_dimensions.1 (w - 1) (by omega)
  have hy := clampCoord_bounds b.y b.get_logo_dimensions.2 (h - 1) (by omega)
  have hpx := clampCoord_bounds b.prev_x b.get_logo_dimensions.1 (w - 1) (by omega)
  have hpy := clampCoord_bounds b.prev_y b.get_logo_dimensions.2 (h - 1) (by omega)
  constructor
  · unfold inBounds
    rw [hdims]
    exact ⟨hx.1, hx.2, hy.1, hy.2⟩
  · unfold prevInBounds
    rw [hdims]
    exact ⟨hpx.1, hpx.2, hpy.1, hpy.2⟩

/-- C2 (witness): the theorem applied at a concrete state and size. -/
theorem resize_inBounds_witness :
    inBounds ((⟨50, 20, 50, 20, 1, 1, Color.Blue, 99, 39,
        SymbolMode.NixOS⟩ : Bouncer).resize 60 30) ∧
    prevInBounds ((⟨50, 20, 50, 20, 1, 1, Color.Blue, 99, 39,
        SymbolMode.NixOS⟩ : Bouncer).resize 60 30) :=
  resize_inBounds
    ⟨50, 20, 50, 20, 1, 1, Color.Blue, 99, 39, SymbolMode.NixOS⟩
    60 30 (by decide) (by decide)

/-! ## Claim C8 -/

/-- C8: in every reachable state both velocity components are exactly
`+1` or `-1`: construction sets them so, and every operation preserves
this (update at most negates them). -/
theorem velocity_components_unit (b : Bouncer) (hb : Reachable b) :
    (b.dx = 1 ∨ b.dx = -1) ∧ (b.dy = 1 ∨ b.dy = -1) := by
  induction hb with
  | new cols lines r1 r2 b1 b2 b hnew =>
      simp only [Bouncer.new] at hnew
      rcases hsx : u16TryFrom ((i32abs r1).tmod
          (max (((cols - 1 : Nat) : Int) - 50) 5) + 2) with _ | vx <;>
        rcases hsy : u16TryFrom ((i32abs r2).tmod
            (max (((lines - 1 : Nat) : Int) - 25) 5) + 2) with _ | vy <;>
          rw [hsx, hsy] at hnew <;> simp only [Option.some.injEq,
            reduceCtorEq] at hnew
      subst hnew
      constructor
      · cases b1 <;> simp
      · cases b2 <;> simp
  | update b rs hR ih =>
      obtain ⟨ihx, ihy⟩ := ih
      constructor
      · rw [update_dx]; split_ifs <;> omega
      · rw [update_dy]; split_ifs <;> omega
  | resize b w h hR ih => exact ih
  | cycle_symbol b hR ih => exact ih
  | cycle_color b r hR ih => exact ih
  | set_middle_finger b hR ih => exact ih
  | set_arch b hR ih => exact ih

/-- C8 (witness): the theorem applied to a concretely constructed state. -/
theorem velocity_components_unit_witness :
    (((⟨2, 2, 2, 2, 1, 1, Color.Blue, 79, 23,
        SymbolMode.NixOS⟩ : Bouncer).dx = 1 ∨
      (⟨2, 2, 2, 2, 1, 1, Color.Blue, 79, 23,
        SymbolMode.NixOS⟩ : Bouncer).dx = -1) ∧
     ((⟨2, 2, 2, 2, 1, 1, Color.Blue, 79, 23,
        SymbolMode.NixOS⟩ : Bouncer).dy = 1 ∨
      (⟨2, 2, 2, 2, 1, 1, Color.Blue, 79, 23,
        SymbolMode.NixOS⟩ : Bouncer).dy = -1)) :=
  velocity_components_unit _
    (Reachable.new 80 24 0 0 true true _ (by decide))

/-! ## Claim C10 -/

/-- C10: when no collision branch fires, `update` changes only the
position (to `(x + dx, y + dy)`) and the previous position (to the old
position); color, velocity, bounds and mode are unchanged, and no value is
drawn from the random source (the RNG stream is returned untouched). -/
theorem update_no_collision_frame (b : Bouncer) (rs : List Nat)
    (hx0 : 0 < (b.x : Int) + b.dx)
    (hx1 : (b.x : Int) + b.dx + b.get_logo_dimensions.1 < (b.max_x : Int))
    (hy0 : 0 < (b.y : Int) + b.dy)
    (hy1 : (b.y : Int) + b.dy + b.get_logo_dimensions.2 < (b.max_y : Int))
    (hmx : b.max_x ≤ 65535) (hmy : b.max_y ≤ 65535) :
    b.update rs =
      ({ b with x := ((b.x : Int) + b.dx).toNat,
                y := ((b.y : Int) + b.dy).toNat,
                prev_x := b.x, prev_y := b.y }, rs) := by
  obtain ⟨hwpos, hhpos⟩ := get_logo_dimensions_pos b
  have hnc_x : ¬((b.x : Int) + b.dx ≤ 0 ∨
      (b.x : Int) + b.dx + b.get_logo_dimensions.1 ≥ (b.max_x : Int)) := by
    omega
  have hnc_y : ¬((b.y : Int) + b.dy ≤ 0 ∨
      (b.y : Int) + b.dy + b.get_logo_dimensions.2 ≥ (b.max_y : Int)) := by
    omega
  have hfst : (b.update rs).1 =
      { b with x := ((b.x : Int) + b.dx).toNat,
               y := ((b.y : Int) + b.dy).toNat,
               prev_x := b.x, prev_y := b.y } := by
    apply Bouncer.ext
    · rw [update_x, if_neg (by omega : ¬((b.x : Int) + b.dx ≤ 0)),
          if_neg (by omega : ¬((b.x : Int) + b.dx +
            b.get_logo_dimensions.1 ≥ (b.max_x : Int)))]
      unfold commitU16
      rw [if_pos ⟨by omega, by omega⟩]
    · rw [update_y, if_neg (by omega : ¬((b.y : Int) + b.dy ≤ 0)),
          if_neg (by omega : ¬((b.y : Int) + b.dy +
            b.get_logo_dimensions.2 ≥ (b.max_y : Int)))]
      unfold commitU16
      rw [if_pos ⟨by omega, by omega⟩]
    · exact update_prev_x b rs
    · exact update_prev_y b rs
    · rw [update_dx, if_neg hnc_x]
    · rw [update_dy, if_neg hnc_y]
    · rw [update_color, if_neg hnc_y, if_neg hnc_x]
    · exact update_max_x b rs
    · exact update_max_y b rs
    · exact update_mode b rs
  have hsnd : (b.update rs).2 = rs := by
    rw [update_rest, if_neg hnc_y, if_neg hnc_x]
  rw [Prod.ext_iff]
  exact ⟨hfst, hsnd⟩

/-- C10 (witness): the theorem applied at a concrete non-colliding state. -/
theorem update_no_collision_frame_witness :
    Bouncer.update
        ⟨10, 10, 10, 10, 1, 1, Color.Blue, 79, 23, SymbolMode.SnowflakeSmall⟩
        [5] =
      (⟨11, 11, 10, 10, 1, 1, Color.Blue, 79, 23,
        SymbolMode.SnowflakeSmall⟩, [5]) :=
  (update_no_collision_frame
      ⟨10, 10, 10, 10, 1, 1, Color.Blue, 79, 23, SymbolMode.SnowflakeSmall⟩
      [5] (by decide) (by decide) (by decide) (by decide) (by decide)
      (by decide)).trans (by decide)

/-! ## Claim C7 -/

/-- C7: row counts agree with the height for every mode, and rows render to
exactly the declared width for `SnowflakeSmall`, `SnowflakeLarge`,
`MiddleFinger` and `Arch` — but every `NixOS` row renders to 45 display
columns while `get_logo_dimensions` declares width 46. -/
theorem logo_nixos_width_mismatch :
    ((⟨0, 0, 0, 0, 1, 1, Color.Blue, 0, 0,
        SymbolMode.SnowflakeSmall⟩ : Bouncer).get_logo_lines.map displayWidth
      = List.replicate 1 1) ∧
    ((⟨0, 0, 0, 0, 1, 1, Color.Blue, 0, 0,
        SymbolMode.SnowflakeLarge⟩ : Bouncer).get_logo_lines.map displayWidth
      = List.replicate 3 5) ∧
    ((⟨0, 0, 0, 0, 1, 1, Color.Blue, 0, 0,
        SymbolMode.MiddleFinger⟩ : Bouncer).get_logo_lines.map displayWidth
      = List.replicate 1 2) ∧
    ((⟨0, 0, 0, 0, 1, 1, Color.Blue, 0, 0,
        SymbolMode.Arch⟩ : Bouncer).get_logo_lines.map displayWidth
      = List.replicate 19 46) ∧
    ((⟨0, 0, 0, 0, 1, 1, Color.Blue, 0, 0,
        SymbolMode.NixOS⟩ : Bouncer).get_logo_lines.map displayWidth
      = List.replicate 19 45) ∧
    ((⟨0, 0, 0, 0, 1, 1, Color.Blue, 0, 0,
        SymbolMode.NixOS⟩ : Bouncer).get_logo_dimensions = (46, 19)) ∧
    (45 : Nat) ≠ 46 :=
  ⟨by decide, by decide, by decide, by decide, by decide, by decide,
   by decide⟩

/-! ## Claim C4 -/

/-- C4 (counterexample): at terminal size (80, 24) the RNG outcome
`r2 = 4` yields `y = 6`, and `6 + 19 = 25 > 23 = max_y`: the claimed
containment `y + 19 ≤ 23` fails. -/
theorem new_80x24_cex :
    Bouncer.new 80 24 0 4 true true =
      some ⟨2, 6, 2, 6, 1, 1, Color.Blue, 79, 23, SymbolMode.NixOS⟩ ∧
    ¬ ((6 : Nat) + 19 ≤ 23) :=
  ⟨by decide, by decide⟩

/-- C4 (amended): for every i32 outcome of the random source other than
`i32::MIN` (where construction panics on `u16::try_from`), construction at
terminal size (80, 24) yields `bounds = (79, 23)`, `mode = NixOS`, a
position with `x + 46 ≤ 79` and `y + 19 ≤ 25` (not 23), drawn as
`x = |r1| % max(cols − 1 − 50, 5) + 2 = |r1| % 29 + 2` and
`y = |r2| % max(rows − 1 − 25, 5) + 2 = |r2| % 5 + 2`. -/
theorem new_80x24_characterisation (r1 r2 : Int) (b1 b2 : Bool)
    (h1l : -(2 ^ 31) < r1) (h1u : r1 < 2 ^ 31)
    (h2l : -(2 ^ 31) < r2) (h2u : r2 < 2 ^ 31) :
    ∃ b, Bouncer.new 80 24 r1 r2 b1 b2 = some b ∧
      b.max_x = 79 ∧ b.max_y = 23 ∧ b.mode = SymbolMode.NixOS ∧
      b.x + 46 ≤ 79 ∧ b.y + 19 ≤ 25 ∧
      b.x = r1.natAbs % 29 + 2 ∧ b.y = r2.natAbs % 5 + 2 := by
  have hm1 := Nat.mod_lt r1.natAbs (show 0 < 29 by norm_num)
  have hm2 := Nat.mod_lt r2.natAbs (show 0 < 5 by norm_num)
  have e1 : i32abs r1 = (r1.natAbs : Int) := by
    unfold i32abs
    rw [if_neg (by omega)]
  have e2 : i32abs r2 = (r2.natAbs : Int) := by
    unfold i32abs
    rw [if_neg (by omega)]
  have hsx : u16TryFrom ((i32abs r1).tmod
      (max (((80 - 1 : Nat) : Int) - 50) 5) + 2) =
      some (r1.natAbs % 29 + 2) := by
    rw [e1, show (max (((80 - 1 : Nat) : Int) - 50) 5) = ((29 : Nat) : Int)
          by norm_num,
        ← Int.ofNat_tmod]
    unfold u16TryFrom
    rw [if_pos ⟨by positivity, by omega⟩]
    exact congrArg some (by omega)
  have hsy : u16TryFrom ((i32abs r2).tmod
      (max (((24 - 1 : Nat) : Int) - 25) 5) + 2) =
      some (r2.natAbs % 5 + 2) := by
    rw [e2, show (max (((24 - 1 : Nat) : Int) - 25) 5) = ((5 : Nat) : Int)
          by norm_num,
        ← Int.ofNat_tmod]
    unfold u16TryFrom
    rw [if_pos ⟨by positivity, by omega⟩]
    exact congrArg some (by omega)
  have hEq : Bouncer.new 80 24 r1 r2 b1 b2 =
      some ⟨r1.natAbs % 29 + 2, r2.natAbs % 5 + 2,
            r1.natAbs % 29 + 2, r2.natAbs % 5 + 2,
            (if b1 then 1 else -1), (if b2 then 1 else -1),
            Color.Blue, 79, 23, SymbolMode.NixOS⟩ := by
    simp only [Bouncer.new]
    rw [hsx, hsy]
  refine ⟨_, hEq, rfl, rfl, rfl, ?_, ?_, rfl, rfl⟩
  · show r1.natAbs % 29 + 2 + 46 ≤ 79
    omega
  · show r2.natAbs % 5 + 2 + 19 ≤ 25
    omega

/-- C4 (witness): the amended theorem applied at the draws
`r1 = r2 = 0`. -/
theorem new_80x24_characterisation_witness :
    ∃ b, Bouncer.new 80 24 0 0 true true = some b ∧
      b.max_x = 79 ∧ b.max_y = 23 ∧ b.mode = SymbolMode.NixOS ∧
      b.x + 46 ≤ 79 ∧ b.y + 19 ≤ 25 ∧
      b.x = (0 : Int).natAbs % 29 + 2 ∧ b.y = (0 : Int).natAbs % 5 + 2 :=
  new_80x24_characterisation 0 0 true true (by decide) (by decide)
    (by decide) (by decide)
